import Mathlib

/-!
Verification of the base-vk-api client library.

The development embeds the two source files of the repository
(src/base_vk_api/__init__.py and its test module) as Lean definitions:

* `Json` models the decoded JSON document returned by `response.json()`;
  JSON numbers are modelled as integers, which covers every value the
  claims exercise.
* `Response` models a `requests.Response` object: an identity tag `oid`
  (two distinct response objects differ in `oid` even when their bodies
  agree, so that attaching "the very same object" is expressible) and the
  behaviour of its `json()` method (a decoded document, or a raised
  `JSONDecodeError`).
* `pyContains` / `pyGetItem` model the Python expressions `key in x` and
  `x[key]` for a string key, including the `TypeError` they raise on
  non-container values.
* `parse_response`, `_get_params`, `make_request` are direct translations
  of the methods of class `BaseVKAPI`.

Pydantic validation of `BaseVKErrorResponse` and of caller models is
modelled strictly: a field typed `int` accepts exactly a JSON integer and
a field typed `str` exactly a JSON string.  Pydantic coercion rules
(for instance a numeric string where an `int` is expected) are not
modelled; no theorem below evaluates the embedding on an input where
coercion would fire.
-/

/-- JSON documents as decoded by `response.json()`.  Numbers are modelled
as integers; no claim involves a non-integer number. -/
inductive Json where
  | null
  | bool (b : Bool)
  | num (n : Int)
  | str (s : String)
  | arr (elems : List Json)
  | obj (fields : List (String × Json))

/-- Python exceptions, other than `VKAPIError`, that the translated code
can raise: `TypeError` (for instance `"error" in 5`, or `**` applied to a
non-mapping), `KeyError` (subscripting a dict with an absent key), and
pydantic `ValidationError`. -/
inductive PyExc where
  | typeError
  | keyError
  | validationError
deriving DecidableEq

/-- Outcome of calling `response.json()`: a decoded document, or a raised
`json.JSONDecodeError`. -/
inductive JsonResult where
  | ok (j : Json)
  | jsonDecodeError

/-- Model of a `requests.Response` object.  `oid` is the object identity
(Python `id`); `json` is what the `json()` method does when called. -/
structure Response where
  oid : Nat
  json : JsonResult

/-- Lookup in a decoded JSON object, first matching key.  A Python dict
has unique keys, so first-match agrees with dict lookup on every document
a real decode can produce. -/
def getVal (fields : List (String × Json)) (key : String) : Option Json :=
  (fields.find? (fun kv => kv.1 == key)).map (fun kv => kv.2)

/-- Membership of `key` among the keys of a decoded JSON object. -/
def hasKey (fields : List (String × Json)) (key : String) : Bool :=
  fields.any (fun kv => kv.1 == key)

/-- Helper for Python substring search on explicit character lists. -/
def charsHaveSub (key : List Char) : List Char → Bool
  | [] => key.isEmpty
  | c :: cs => key.isPrefixOf (c :: cs) || charsHaveSub key cs

/-- Python `key in hay` for two strings: substring containment. -/
def strContainsSub (hay key : String) : Bool :=
  charsHaveSub key.data hay.data

/-- Python `key in j` for a string `key`.  On a dict it tests keys; on a
list it tests membership, where `elem == key` holds exactly for the equal
string (Python equality between a string and a non-string is `False`); on
a string it is substring containment; on `None`, booleans and numbers it
raises `TypeError`. -/
def pyContains (j : Json) (key : String) : Except PyExc Bool :=
  match j with
  | .obj fields => .ok (hasKey fields key)
  | .arr elems => .ok (elems.any (fun e =>
      match e with
      | .str s => s == key
      | _ => false))
  | .str s => .ok (strContainsSub s key)
  | _ => .error .typeError

/-- Python `j[key]` for a string `key`: dict lookup (raising `KeyError`
when absent); every other shape raises `TypeError` (list and string
indices must be integers, `None`/booleans/numbers are not subscriptable). -/
def pyGetItem (j : Json) (key : String) : Except PyExc Json :=
  match j with
  | .obj fields =>
    match getVal fields key with
    | some v => .ok v
    | none => .error .keyError
  | _ => .error .typeError

/-- Model of pydantic class `BaseVKErrorResponseError`. -/
structure BaseVKErrorResponseError where
  error_code : Int
  error_msg : String

/-- Model of pydantic class `BaseVKErrorResponse`. -/
structure BaseVKErrorResponse where
  error : BaseVKErrorResponseError

/-- Model of the call `BaseVKErrorResponse(**resp_json)`.  Unpacking
`**` a non-mapping raises `TypeError`; otherwise pydantic requires an
`error` field holding a mapping with an integer `error_code` and a string
`error_msg` (extra fields are ignored), raising `ValidationError` when
the shape does not match.  The model is strict; real pydantic in its
default lax mode additionally coerces some near-miss values (for
instance a numeric string where an `int` is expected).  The model
provably agrees with real pydantic on the inputs the theorems evaluate:
strictly well-formed error objects (accepted by both) and `error` values
that are not mappings at all (rejected by every pydantic version).  No
theorem below distinguishes the api-error outcome from the
`ValidationError` outcome on the coercion boundary in between. -/
def mkBaseVKErrorResponse (j : Json) : Except PyExc BaseVKErrorResponse :=
  match j with
  | .obj fields =>
    match getVal fields "error" with
    | some (.obj efields) =>
      match getVal efields "error_code", getVal efields "error_msg" with
      | some (.num c), some (.str m) => .ok ⟨⟨c, m⟩⟩
      | _, _ => .error .validationError
    | some _ => .error .validationError
    | none => .error .validationError
  | _ => .error .typeError

/-- Spec-level discriminant of the three `raise VKAPIError` sites in
`parse_response`. -/
inductive ErrorKind where
  | decodeFailure
  | apiError
  | missingResponseField
deriving DecidableEq

/-- Model of a raised `VKAPIError`: the positional message argument, the
optional `error_code` and `error_msg` keyword arguments, the `response`
keyword argument, and the spec-level `kind` tag of the raise site. -/
structure VKAPIError where
  kind : ErrorKind
  message : String
  error_code : Option Int
  error_msg : Option String
  response : Response

/-- Outcome of a call to `parse_response`: a returned raw payload, a
returned model instance, a raised `VKAPIError`, or another raised Python
exception. -/
inductive ParseOutcome (α : Type) where
  | success (v : Json)
  | successModel (x : α)
  | vkapiError (e : VKAPIError)
  | pyExc (e : PyExc)

/-- Model of a caller-supplied pydantic model class: given the keyword
arguments of `model(**d)` it returns the validated instance or fails
(pydantic `ValidationError`). -/
def ModelClass (α : Type) : Type := List (String × Json) → Option α

/-- Translation of `BaseVKAPI.parse_response`.  The steps mirror the
source line by line: `response.json()` with `JSONDecodeError` caught and
re-raised as a `VKAPIError`; `if "error" in resp_json` followed by
`BaseVKErrorResponse(**resp_json)` and a `VKAPIError` carrying the parsed
code and message; `if "response" not in resp_json` raising a
`VKAPIError`; then `resp_json["response"]` returned raw or unpacked into
the model with `model(**resp_json["response"])`. -/
def parse_response (α : Type) (response : Response)
    (model : Option (ModelClass α)) : ParseOutcome α :=
  match response.json with
  | .jsonDecodeError =>
    .vkapiError ⟨.decodeFailure, "Can\x27t decode json response", none, none, response⟩
  | .ok resp_json =>
    match pyContains resp_json "error" with
    | .error e => .pyExc e
    | .ok true =>
      match mkBaseVKErrorResponse resp_json with
      | .error e => .pyExc e
      | .ok parsed =>
        .vkapiError ⟨.apiError, parsed.error.error_msg,
          some parsed.error.error_code, some parsed.error.error_msg, response⟩
    | .ok false =>
      match pyContains resp_json "response" with
      | .error e => .pyExc e
      | .ok false =>
        .vkapiError ⟨.missingResponseField,
          "No \x22response\x22 key found in response dict", none, none, response⟩
      | .ok true =>
        match model with
        | none =>
          match pyGetItem resp_json "response" with
          | .error e => .pyExc e
          | .ok v => .success v
        | some m =>
          match pyGetItem resp_json "response" with
          | .error e => .pyExc e
          | .ok v =>
            match v with
            | .obj fields =>
              match m fields with
              | some inst => .successModel inst
              | none => .pyExc .validationError
            | _ => .pyExc .typeError

/-- Python values appearing in a `params` mapping of type `dict[str, Any]`:
the shapes the library and its tests exercise are strings, integers,
booleans and lists thereof. -/
inductive PyVal where
  | str (s : String)
  | int (n : Int)
  | bool (b : Bool)
  | list (elems : List PyVal)

mutual

/-- Python `repr` of a value, used by `str` on a list.  Quote escaping
inside string reprs is not modelled; no theorem depends on the repr of a
list. -/
def pyRepr : PyVal → String
  | .str s => "\x27" ++ s ++ "\x27"
  | .int n => toString n
  | .bool b => if b then "True" else "False"
  | .list xs => "[" ++ pyReprElems xs ++ "]"

/-- Comma-separated reprs of the elements of a list. -/
def pyReprElems : List PyVal → String
  | [] => ""
  | [x] => pyRepr x
  | x :: y :: ys => pyRepr x ++ ", " ++ pyReprElems (y :: ys)

end

/-- Python `str` of a value: identity on strings, decimal on integers,
`True`/`False` on booleans, `repr`-based on lists. -/
def pyStr : PyVal → String
  | .str s => s
  | .int n => toString n
  | .bool b => if b then "True" else "False"
  | .list xs => pyRepr (.list xs)

/-- Model of the class attributes of `BaseVKAPI` set by `__init__`
(the `requests.Session` is kept outside the pure embedding; `make_request`
receives the transport as an explicit function). -/
structure BaseVKAPI where
  token : String
  endpoint : String
  api_version : String
  lang : String

/-- Constructor `BaseVKAPI(token)` with the default keyword arguments of
`__init__`. -/
def mkBaseVKAPI (token : String) : BaseVKAPI :=
  ⟨token, "https://api.vk.com", "5.131", "ru"⟩

/-- Python dicts preserve insertion order; a `dict[str, Any]` is embedded
as the ordered list of its key-value pairs. -/
abbrev Params : Type := List (String × PyVal)

/-- Lookup of a key in a params dict, first matching pair. -/
def getParam (d : Params) (key : String) : Option PyVal :=
  (d.find? (fun kv => kv.1 == key)).map (fun kv => kv.2)

/-- Python `d[key] = v` on a dict: when the key is present its value is
replaced at its existing position, otherwise the pair is appended. -/
def setItem (d : Params) (key : String) (v : PyVal) : Params :=
  if d.any (fun kv => kv.1 == key) then
    d.map (fun kv => if kv.1 == key then (key, v) else kv)
  else
    d ++ [(key, v)]

/-- String produced by `",".join(str(p) for p in xs)`. -/
def joinList (xs : List PyVal) : String :=
  String.intercalate "," (xs.map pyStr)

/-- Per-value normalization performed by the `for key in params` loop of
`_get_params`: a list value is replaced by the comma-joined string of its
elements, any other value is untouched.  Assigning `params[key]` during
the loop keeps keys and order unchanged, so the loop is a map over the
pairs. -/
def normalizeStep (d : Params) : Params :=
  d.map (fun kv =>
    match kv.2 with
    | .list xs => (kv.1, .str (joinList xs))
    | _ => kv)

/-- Translation of `BaseVKAPI._get_params`: the normalization loop, then
`params |= {"access_token": ..., "v": ..., "lang": ...}`, which updates
existing keys in place and appends new ones in the literal order of the
right operand. -/
def _get_params (self : BaseVKAPI) (params : Params) : Params :=
  setItem (setItem (setItem (normalizeStep params)
    "access_token" (.str self.token))
    "v" (.str self.api_version))
    "lang" (.str self.lang)

/-- Model of a Python dict object: its identity (Python `id`) and its
current entries.  Statement `params |= ...` and item assignment mutate
the receiver, so a function returning the received object returns one
with the same `oid`. -/
structure DictObj where
  oid : Nat
  entries : Params

/-- Translation of `BaseVKAPI._get_params` at the object level: the
method mutates the dict it receives (item assignment in the loop, `|=`
for the reserved keys) and returns that same object via `return params`;
no copy is made. -/
def getParamsObj (self : BaseVKAPI) (params : DictObj) : DictObj :=
  ⟨params.oid, _get_params self params.entries⟩

/-- An outgoing GET request as handed to `self._session.get`: the URL
built from the endpoint and the method name, and the query parameters in
the order of the params dict, each value stringified by the transport. -/
structure HttpRequest where
  url : String
  query : List (String × String)

/-- Query-string rendering `k1=v1&k2=v2&...` in order.  Percent-encoding
is the identity on the characters appearing in the claims. -/
def renderQuery (q : List (String × String)) : String :=
  String.intercalate "&" (q.map (fun kv => kv.1 ++ "=" ++ kv.2))

/-- Request built by `make_request` before the transport call:
`f"{self.endpoint}/method/{method}"` with the normalized params as the
query string. -/
def buildRequest (self : BaseVKAPI) (method : String) (params : Params) :
    HttpRequest :=
  ⟨self.endpoint ++ "/method/" ++ method,
    (_get_params self params).map (fun kv => (kv.1, pyStr kv.2))⟩

/-- Translation of `BaseVKAPI.make_request`: normalize the params, issue
the GET through the transport, and parse the response.  The transport is
the behaviour of `self._session.get` as a function from the outgoing
request to the response it yields. -/
def make_request (α : Type) (self : BaseVKAPI) (method : String)
    (params : Params) (transport : HttpRequest → Response)
    (model : Option (ModelClass α)) : ParseOutcome α :=
  parse_response α (transport (buildRequest self method params)) model

/-- Normalization of a single value, as performed by the loop body of
`_get_params` on the value at one key. -/
def normVal : PyVal → PyVal
  | .list xs => .str (joinList xs)
  | v => v

/-- Discriminator: the outcome is a raised `VKAPIError` whose raise site
is the api-error one. -/
def isApiLevelError {α : Type} : ParseOutcome α → Bool
  | .vkapiError e => e.kind == .apiError
  | _ => false

/-- Discriminator: the outcome is a raised `VKAPIError` whose raise site
is the missing-response-field one. -/
def isMissingFieldError {α : Type} : ParseOutcome α → Bool
  | .vkapiError e => e.kind == .missingResponseField
  | _ => false

/-- Discriminator: the outcome is a successful return (raw payload or
model instance). -/
def isSuccessOutcome {α : Type} : ParseOutcome α → Bool
  | .success _ => true
  | .successModel _ => true
  | _ => false

/-- Discriminator: the outcome is a raised `VKAPIError` of any kind. -/
def isVKAPIErrorOutcome {α : Type} : ParseOutcome α → Bool
  | .vkapiError _ => true
  | _ => false

/-- Shape of a well-formed error object per the inbound contract: a JSON
object with an integer `error_code` and a string `error_msg`. -/
def WellFormedError (v : Json) : Prop :=
  ∃ efields code msg, v = Json.obj efields
    ∧ getVal efields "error_code" = some (.num code)
    ∧ getVal efields "error_msg" = some (.str msg)

/-- Model class used by the end-to-end scenario: a pydantic model with a
single string field `foo` (named after the test module). -/
structure WallGetResponse where
  foo : String

/-- Validator of `WallGetResponse(**kwargs)`: requires a string value
under `foo`, ignores extra fields. -/
def wallGetResponseClass : ModelClass WallGetResponse := fun fields =>
  match getVal fields "foo" with
  | some (.str s) => some ⟨s⟩
  | _ => none

/-! ### Basic lemmas about lookups and updates -/

theorem hasKey_of_getVal {fields : List (String × Json)} {k : String}
    {v : Json} (h : getVal fields k = some v) : hasKey fields k = true := by
  unfold getVal at h
  unfold hasKey
  rcases hf : fields.find? (fun kv => kv.1 == k) with _ | kv
  · rw [hf] at h; cases h
  · have := List.find?_some hf
    have hmem := List.mem_of_find?_eq_some hf
    exact List.any_eq_true.mpr ⟨kv, hmem, this⟩

theorem getVal_isSome_of_hasKey {fields : List (String × Json)} {k : String}
    (h : hasKey fields k = true) : ∃ v, getVal fields k = some v := by
  unfold hasKey at h
  obtain ⟨kv, hmem, hkv⟩ := List.any_eq_true.mp h
  unfold getVal
  rcases hf : fields.find? (fun kv => kv.1 == k) with _ | kv'
  · rw [List.find?_eq_none] at hf
    exact absurd hkv (hf kv hmem)
  · exact ⟨kv'.2, by rw [hf]; rfl⟩

theorem getParam_setItem_self (d : Params) (k : String) (v : PyVal) :
    getParam (setItem d k v) k = some v := by
  unfold setItem
  split
  case isTrue h =>
    induction d with
    | nil => simp at h
    | cons hd tl ih =>
      by_cases hk : (hd.1 == k) = true
      · simp only [List.map_cons, hk, if_pos]
        unfold getParam
        rw [List.find?_cons_of_pos _ (by simp)]
        rfl
      · simp only [List.any_cons, hk, Bool.false_or] at h
        simp only [List.map_cons, hk, Bool.false_eq_true, not_false_iff,
          if_neg]
        unfold getParam
        rw [List.find?_cons_of_neg _ (by simpa using hk)]
        exact ih h
  case isFalse h =>
    unfold getParam
    rw [List.find?_append]
    have hnone : d.find? (fun kv => kv.1 == k) = none := by
      rw [List.find?_eq_none]
      intro x hx hpx
      exact h (List.any_eq_true.mpr ⟨x, hx, hpx⟩)
    rw [hnone]
    simp [List.find?]

theorem find?_map_setItem_ne (d : Params) (k k' : String) (v : PyVal)
    (hne : k' ≠ k) :
    (d.map (fun kv => if kv.1 == k then (k, v) else kv)).find?
        (fun kv => kv.1 == k')
      = d.find? (fun kv => kv.1 == k') := by
  induction d with
  | nil => rfl
  | cons hd tl ih =>
    by_cases hk : (hd.1 == k) = true
    · have hd1 : hd.1 = k := by simpa using hk
      simp only [List.map_cons, hk, if_pos]
      rw [List.find?_cons_of_neg _ (by simp; exact fun hc => hne hc.symm),
        List.find?_cons_of_neg _ (by simp [hd1]; exact fun hc => hne hc.symm)]
      exact ih
    · simp only [List.map_cons, hk, Bool.false_eq_true, not_false_iff, if_neg,
        List.find?_cons]
      by_cases hk' : (hd.1 == k') = true
      · simp [hk']
      · simp only [Bool.not_eq_true] at hk'
        simp only [hk']
        exact ih

theorem getParam_setItem_ne (d : Params) (k k' : String) (v : PyVal)
    (hne : k' ≠ k) : getParam (setItem d k v) k' = getParam d k' := by
  unfold setItem getParam
  split
  · rw [find?_map_setItem_ne d k k' v hne]
  · rw [List.find?_append]
    have hsingle : ([(k, v)].find? (fun kv => kv.1 == k')) = none := by
      rw [List.find?_cons_of_neg _ (by simp; exact fun hc => hne hc.symm)]
      rfl
    rw [hsingle, Option.or_none]

theorem normalizeStep_cons (a : String) (b : PyVal) (tl : Params) :
    normalizeStep ((a, b) :: tl) = (a, normVal b) :: normalizeStep tl := by
  cases b <;> rfl

theorem getParam_normalizeStep (d : Params) (k : String) :
    getParam (normalizeStep d) k = (getParam d k).map normVal := by
  induction d with
  | nil => rfl
  | cons hd tl ih =>
    obtain ⟨a, b⟩ := hd
    rw [normalizeStep_cons]
    unfold getParam at *
    by_cases h : (a == k) = true
    · rw [List.find?_cons_of_pos _ (by simpa using h),
        List.find?_cons_of_pos _ (by simpa using h)]
      rfl
    · rw [List.find?_cons_of_neg _ (by simpa using h),
        List.find?_cons_of_neg _ (by simpa using h)]
      exact ih

theorem arrContains_eq_false {elems : List Json} {key : String}
    (h : (Json.str key) ∉ elems) :
    (elems.any (fun e => match e with | .str s => s == key | _ => false))
      = false := by
  rw [List.any_eq_false]
  intro x hx
  cases x <;> simp
  case str s => exact fun hs => h (hs ▸ hx)

theorem mkErr_obj_not_typeError (fields : List (String × Json))
    (e : PyExc) (h : mkBaseVKErrorResponse (.obj fields) = .error e) :
    e = .validationError := by
  unfold mkBaseVKErrorResponse at h
  repeat' split at h
  all_goals simp_all

/-! ### Behaviour of the individual steps of parse_response -/

theorem parse_response_decode_error (α : Type) (m : Option (ModelClass α))
    (r : Response) (h : r.json = .jsonDecodeError) :
    parse_response α r m = .vkapiError
      ⟨.decodeFailure, "Can\x27t decode json response", none, none, r⟩ := by
  simp [parse_response, h]

theorem parse_raw_payload_spec (r : Response)
    (fields : List (String × Json)) (v : Json)
    (hbody : r.json = .ok (.obj fields))
    (hnoerr : hasKey fields "error" = false)
    (hresp : getVal fields "response" = some v) :
    parse_response Unit r none = .success v := by
  have hk : hasKey fields "response" = true := hasKey_of_getVal hresp
  simp [parse_response, hbody, pyContains, hnoerr, hk, pyGetItem, hresp]

theorem parse_missing_field_spec (α : Type) (m : Option (ModelClass α))
    (r : Response) (j : Json) (hbody : r.json = .ok j)
    (hshape :
      (∃ fields, j = Json.obj fields ∧ hasKey fields "error" = false
        ∧ hasKey fields "response" = false)
      ∨ (∃ elems, j = Json.arr elems ∧ (Json.str "error") ∉ elems
        ∧ (Json.str "response") ∉ elems)) :
    parse_response α r m = .vkapiError ⟨.missingResponseField,
      "No \x22response\x22 key found in response dict", none, none, r⟩ := by
  rcases hshape with ⟨fields, rfl, he, hr⟩ | ⟨elems, rfl, he, hr⟩
  · simp [parse_response, hbody, pyContains, he, hr]
  · simp [parse_response, hbody, pyContains,
      arrContains_eq_false he, arrContains_eq_false hr]

/-! ### Claim theorems -/

theorem parse_api_error_spec (α : Type) (m : Option (ModelClass α))
    (r : Response) (fields efields : List (String × Json)) (code : Int)
    (msg : String)
    (hbody : r.json = .ok (.obj fields))
    (herr : getVal fields "error" = some (.obj efields))
    (hcode : getVal efields "error_code" = some (.num code))
    (hmsg : getVal efields "error_msg" = some (.str msg)) :
    parse_response α r m
      = .vkapiError ⟨.apiError, msg, some code, some msg, r⟩ := by
  have hk : hasKey fields "error" = true := hasKey_of_getVal herr
  simp [parse_response, hbody, pyContains, hk, mkBaseVKErrorResponse,
    herr, hcode, hmsg]

/-- Claim C6 (confirmed): for every response whose decoded body is an
object containing an `error` key whose nested object contains an integer
`error_code` and a string `error_msg`, `parse_response` raises a
`VKAPIError` of kind api-error whose `error_code` and `error_msg` fields
equal those values verbatim and whose display message equals
`error_msg`. -/
theorem C6_api_error_extraction (α : Type) (m : Option (ModelClass α))
    (r : Response) (fields efields : List (String × Json)) (code : Int)
    (msg : String)
    (hbody : r.json = .ok (.obj fields))
    (herr : getVal fields "error" = some (.obj efields))
    (hcode : getVal efields "error_code" = some (.num code))
    (hmsg : getVal efields "error_msg" = some (.str msg)) :
    parse_response α r m
      = .vkapiError ⟨.apiError, msg, some code, some msg, r⟩ :=
  parse_api_error_spec α m r fields efields code msg hbody herr hcode hmsg

/-- Witness for C6 at the concrete body of the repository test:
`{"error": {"error_code": 1, "error_msg": "lala"}}`. -/
theorem C6_api_error_extraction_witness :
    parse_response Unit
        ⟨5, .ok (.obj [("error",
          .obj [("error_code", .num 1), ("error_msg", .str "lala")])])⟩ none
      = .vkapiError ⟨.apiError, "lala", some 1, some "lala",
          ⟨5, .ok (.obj [("error",
            .obj [("error_code", .num 1), ("error_msg", .str "lala")])])⟩⟩ :=
  C6_api_error_extraction Unit none _ _ _ 1 "lala" rfl rfl rfl rfl

/-- Claim C8 (confirmed): for every response whose decoded body is an
object with a `response` key and no `error` key, `parse_response` with no
model supplied returns the value under the `response` key unchanged. -/
theorem C8_raw_payload (r : Response) (fields : List (String × Json))
    (v : Json)
    (hbody : r.json = .ok (.obj fields))
    (hnoerr : hasKey fields "error" = false)
    (hresp : getVal fields "response" = some v) :
    parse_response Unit r none = .success v :=
  parse_raw_payload_spec r fields v hbody hnoerr hresp

/-- Witness for C8 at the concrete body `{"response": ["foo", "bar"]}`:
the raw list is returned. -/
theorem C8_raw_payload_witness :
    parse_response Unit
        ⟨6, .ok (.obj [("response", .arr [.str "foo", .str "bar"])])⟩ none
      = .success (.arr [.str "foo", .str "bar"]) :=
  C8_raw_payload _ _ _ rfl rfl rfl

/-- Claim C9 (confirmed): every `VKAPIError` raised by `parse_response`
carries the exact response object that was passed in; in the embedding,
object identity is the `oid` tag and the attached response equals the
input response, `oid` included. -/
theorem C9_response_identity (α : Type) (r : Response)
    (m : Option (ModelClass α)) (e : VKAPIError)
    (h : parse_response α r m = .vkapiError e) : e.response = r := by
  unfold parse_response at h
  repeat' split at h
  all_goals simp_all
  all_goals (cases h; rfl)

/-- Witness for C9 at a response whose body fails to decode. -/
theorem C9_response_identity_witness :
    (VKAPIError.mk .decodeFailure "Can\x27t decode json response"
        none none ⟨3, .jsonDecodeError⟩).response = ⟨3, .jsonDecodeError⟩ :=
  C9_response_identity Unit ⟨3, .jsonDecodeError⟩ none _ rfl

/-- Counterexample to claim C7 as stated: on a body that is not valid
JSON the raised message is capitalized, `Can\x27t decode json response`,
not the claimed `can\x27t decode json response`. -/
theorem C7_message_counterexample :
    parse_response Unit ⟨0, .jsonDecodeError⟩ none
      = .vkapiError ⟨.decodeFailure, "Can\x27t decode json response",
          none, none, ⟨0, .jsonDecodeError⟩⟩
    ∧ "Can\x27t decode json response" ≠ "can\x27t decode json response" :=
  ⟨rfl, by decide⟩

/-- Claim C7 (corrected): for every response whose body is not valid
JSON, `parse_response` raises a `VKAPIError` of kind decode-failure whose
message is `Can\x27t decode json response` (capitalized, unlike the
claim) and which carries no error code and no error message. -/
theorem C7_decode_failure (α : Type) (m : Option (ModelClass α))
    (r : Response) (h : r.json = .jsonDecodeError) :
    parse_response α r m = .vkapiError
      ⟨.decodeFailure, "Can\x27t decode json response", none, none, r⟩ :=
  parse_response_decode_error α m r h

/-- Witness for C7 at a concrete undecodable response. -/
theorem C7_decode_failure_witness :
    parse_response Unit ⟨9, .jsonDecodeError⟩ none
      = .vkapiError ⟨.decodeFailure, "Can\x27t decode json response",
          none, none, ⟨9, .jsonDecodeError⟩⟩ :=
  C7_decode_failure Unit none ⟨9, .jsonDecodeError⟩ rfl

/-- Counterexample to claim C3 as stated.  Two failures: the actual
message is `No "response" key found in response dict` (capitalized, with
double quotes), not the claimed one; and a decoded body `5` (a top-level
JSON number, to which neither the decode-failure nor the api-error check
of the spec applies) makes `"error" in resp_json` raise a `TypeError`
instead of any `VKAPIError`. -/
theorem C3_counterexample :
    parse_response Unit ⟨1, .ok (.num 5)⟩ none = .pyExc .typeError
    ∧ isMissingFieldError (parse_response Unit ⟨1, .ok (.num 5)⟩ none) = false
    ∧ parse_response Unit ⟨2, .ok (.obj [])⟩ none
        = .vkapiError ⟨.missingResponseField,
            "No \x22response\x22 key found in response dict", none, none,
            ⟨2, .ok (.obj [])⟩⟩
    ∧ "No \x22response\x22 key found in response dict"
        ≠ "no \x27response\x27 key found in response dict" :=
  ⟨rfl, rfl, rfl, by decide⟩

/-- Claim C3 (corrected): for every decoded body that is a dict with
neither a `response` key nor an `error` key, and for every decoded body
that is a JSON array containing neither the string `error` nor the
string `response` as an element, `parse_response` raises a `VKAPIError`
of kind missing-response-field with message
`No "response" key found in response dict`. -/
theorem C3_missing_response_field (α : Type) (m : Option (ModelClass α))
    (r : Response) (j : Json) (hbody : r.json = .ok j)
    (hshape :
      (∃ fields, j = Json.obj fields ∧ hasKey fields "error" = false
        ∧ hasKey fields "response" = false)
      ∨ (∃ elems, j = Json.arr elems ∧ (Json.str "error") ∉ elems
        ∧ (Json.str "response") ∉ elems)) :
    parse_response α r m = .vkapiError ⟨.missingResponseField,
      "No \x22response\x22 key found in response dict", none, none, r⟩ :=
  parse_missing_field_spec α m r j hbody hshape

/-- Witness for C3 at the two concrete bodies of the repository test:
`{"notresponse": "foo"}` and `["foo", "ba"]`. -/
theorem C3_missing_response_field_witness :
    parse_response Unit ⟨3, .ok (.obj [("notresponse", .str "foo")])⟩ none
      = .vkapiError ⟨.missingResponseField,
          "No \x22response\x22 key found in response dict", none, none,
          ⟨3, .ok (.obj [("notresponse", .str "foo")])⟩⟩
    ∧ parse_response Unit ⟨4, .ok (.arr [.str "foo", .str "ba"])⟩ none
      = .vkapiError ⟨.missingResponseField,
          "No \x22response\x22 key found in response dict", none, none,
          ⟨4, .ok (.arr [.str "foo", .str "ba"])⟩⟩ :=
  ⟨C3_missing_response_field Unit none _ _ rfl
      (Or.inl ⟨_, rfl, rfl, rfl⟩),
    C3_missing_response_field Unit none _ _ rfl
      (Or.inr ⟨_, rfl, by simp, by simp⟩)⟩

/-- Counterexample to claim C1 as stated: the body
`{"error": 1, "response": 2}` contains both an `error` key and a
`response` key, yet the api-error classification is not raised — the
nested value `1` fails pydantic validation inside
`BaseVKErrorResponse(**resp_json)` and a `ValidationError` escapes. -/
theorem C1_counterexample :
    parse_response Unit ⟨0, .ok (.obj [("error", .num 1), ("response", .num 2)])⟩ none
      = .pyExc .validationError
    ∧ isApiLevelError (parse_response Unit
        ⟨0, .ok (.obj [("error", .num 1), ("response", .num 2)])⟩ none) = false :=
  ⟨rfl, rfl⟩

/-- Claim C1 (corrected): the three checks run strictly in the order
decode-failure, api-error, missing-response-field.  A body that is not
valid JSON always yields the decode-failure error.  For every decoded
dict containing both an `error` key and a `response` key the outcome is
never the missing-response-field classification and never a success:
the call either raises the api-error classification or a pydantic
`ValidationError` (not a `VKAPIError`), and the `ValidationError` case
does occur, as the counterexample shows. -/
theorem C1_check_order (α : Type) (m : Option (ModelClass α)) :
    (∀ r : Response, r.json = .jsonDecodeError →
      parse_response α r m = .vkapiError
        ⟨.decodeFailure, "Can\x27t decode json response", none, none, r⟩)
    ∧ (∀ (r : Response) (fields : List (String × Json)),
        r.json = .ok (.obj fields) →
        hasKey fields "error" = true → hasKey fields "response" = true →
        (isApiLevelError (parse_response α r m) = true
          ∨ parse_response α r m = .pyExc .validationError)
        ∧ isMissingFieldError (parse_response α r m) = false
        ∧ isSuccessOutcome (parse_response α r m) = false) := by
  constructor
  · exact fun r h => parse_response_decode_error α m r h
  · intro r fields hbody he _hr
    have hred : parse_response α r m
        = (match mkBaseVKErrorResponse (.obj fields) with
          | .error e => ParseOutcome.pyExc e
          | .ok parsed => ParseOutcome.vkapiError ⟨.apiError,
              parsed.error.error_msg, some parsed.error.error_code,
              some parsed.error.error_msg, r⟩) := by
      simp [parse_response, hbody, pyContains, he]
    rcases hmk : mkBaseVKErrorResponse (.obj fields) with e | p
    · have hval := mkErr_obj_not_typeError fields e hmk
      subst hval
      rw [hred, hmk]
      exact ⟨Or.inr rfl, rfl, rfl⟩
    · rw [hred, hmk]
      exact ⟨Or.inl rfl, rfl, rfl⟩

/-- Witness for C1: part one at an undecodable body, part two at the
well-formed error body `{"error": {"error_code": 1, "error_msg": "x"},
"response": 2}`. -/
theorem C1_check_order_witness :
    parse_response Unit ⟨7, .jsonDecodeError⟩ none
      = .vkapiError ⟨.decodeFailure, "Can\x27t decode json response",
          none, none, ⟨7, .jsonDecodeError⟩⟩
    ∧ ((isApiLevelError (parse_response Unit ⟨8, .ok (.obj
          [("error", .obj [("error_code", .num 1), ("error_msg", .str "x")]),
            ("response", .num 2)])⟩ none) = true
        ∨ parse_response Unit ⟨8, .ok (.obj
          [("error", .obj [("error_code", .num 1), ("error_msg", .str "x")]),
            ("response", .num 2)])⟩ none = .pyExc .validationError)
      ∧ isMissingFieldError (parse_response Unit ⟨8, .ok (.obj
          [("error", .obj [("error_code", .num 1), ("error_msg", .str "x")]),
            ("response", .num 2)])⟩ none) = false
      ∧ isSuccessOutcome (parse_response Unit ⟨8, .ok (.obj
          [("error", .obj [("error_code", .num 1), ("error_msg", .str "x")]),
            ("response", .num 2)])⟩ none) = false) :=
  ⟨(C1_check_order Unit none).1 ⟨7, .jsonDecodeError⟩ rfl,
    (C1_check_order Unit none).2 ⟨8, .ok (.obj
      [("error", .obj [("error_code", .num 1), ("error_msg", .str "x")]),
        ("response", .num 2)])⟩ _ rfl rfl rfl⟩

/-- Counterexample to claim C4 as stated: the decoded body `null` is a
JSON body shape on which the classification layer produces neither a
payload nor a `VKAPIError` — the membership test `"error" in resp_json`
raises a `TypeError`. -/
theorem C4_counterexample :
    parse_response Unit ⟨0, .ok .null⟩ none = .pyExc .typeError
    ∧ isVKAPIErrorOutcome (parse_response Unit ⟨0, .ok .null⟩ none) = false
    ∧ isSuccessOutcome (parse_response Unit ⟨0, .ok .null⟩ none) = false :=
  ⟨rfl, rfl, rfl⟩

/-- Claim C4 (corrected): for every no-model call whose body either
fails to decode or decodes to a dict whose `error` value, when present,
is a well-formed error object, exactly one of the two outcomes occurs: a
successful payload is returned, or a `VKAPIError` is raised.  Outside
this domain other exception types escape the classification layer:
`TypeError` for top-level JSON values that do not support the `in`
membership test, and pydantic `ValidationError` for malformed error
objects. -/
theorem C4_total_classification (r : Response)
    (hbody : r.json = .jsonDecodeError
      ∨ ∃ fields, r.json = .ok (.obj fields)
        ∧ ∀ v, getVal fields "error" = some v → WellFormedError v) :
    (isSuccessOutcome (parse_response Unit r none) = true
      ∧ isVKAPIErrorOutcome (parse_response Unit r none) = false)
    ∨ (isSuccessOutcome (parse_response Unit r none) = false
      ∧ isVKAPIErrorOutcome (parse_response Unit r none) = true) := by
  rcases hbody with h | ⟨fields, h, hwf⟩
  · right
    rw [parse_response_decode_error Unit none r h]
    exact ⟨rfl, rfl⟩
  · by_cases he : hasKey fields "error" = true
    · obtain ⟨v, hv⟩ := getVal_isSome_of_hasKey he
      obtain ⟨efields, code, msg, rfl, hc, hm⟩ := hwf v hv
      right
      rw [parse_api_error_spec Unit none r fields efields code msg h hv hc hm]
      exact ⟨rfl, rfl⟩
    · simp only [Bool.not_eq_true] at he
      by_cases hr : hasKey fields "response" = true
      · obtain ⟨v, hv⟩ := getVal_isSome_of_hasKey hr
        left
        rw [parse_raw_payload_spec r fields v h he hv]
        exact ⟨rfl, rfl⟩
      · simp only [Bool.not_eq_true] at hr
        right
        rw [parse_missing_field_spec Unit none r _ h
          (Or.inl ⟨fields, rfl, he, hr⟩)]
        exact ⟨rfl, rfl⟩

/-- Witness for C4: at the body `{"response": 3}` (no error key, so the
well-formedness side condition holds vacuously) the call succeeds. -/
theorem C4_total_classification_witness :
    (isSuccessOutcome (parse_response Unit ⟨11, .ok (.obj [("response", .num 3)])⟩ none) = true
      ∧ isVKAPIErrorOutcome (parse_response Unit ⟨11, .ok (.obj [("response", .num 3)])⟩ none) = false)
    ∨ (isSuccessOutcome (parse_response Unit ⟨11, .ok (.obj [("response", .num 3)])⟩ none) = false
      ∧ isVKAPIErrorOutcome (parse_response Unit ⟨11, .ok (.obj [("response", .num 3)])⟩ none) = true) :=
  C4_total_classification ⟨11, .ok (.obj [("response", .num 3)])⟩
    (Or.inr ⟨[("response", .num 3)], rfl,
      fun v hv => by simp [getVal, List.find?] at hv⟩)

/-! ### Parameter normalization -/

theorem get_params_spec (self : BaseVKAPI) (params : Params) :
    getParam (_get_params self params) "access_token" = some (.str self.token)
    ∧ getParam (_get_params self params) "v" = some (.str self.api_version)
    ∧ getParam (_get_params self params) "lang" = some (.str self.lang)
    ∧ ∀ k : String, k ≠ "access_token" → k ≠ "v" → k ≠ "lang" →
        getParam (_get_params self params) k = (getParam params k).map normVal := by
  unfold _get_params
  refine ⟨?_, ?_, ?_, ?_⟩
  · rw [getParam_setItem_ne _ _ _ _ (by decide),
      getParam_setItem_ne _ _ _ _ (by decide), getParam_setItem_self]
  · rw [getParam_setItem_ne _ _ _ _ (by decide), getParam_setItem_self]
  · rw [getParam_setItem_self]
  · intro k h1 h2 h3
    rw [getParam_setItem_ne _ _ _ _ h3, getParam_setItem_ne _ _ _ _ h2,
      getParam_setItem_ne _ _ _ _ h1, getParam_normalizeStep]

/-- Claim C2 (confirmed): `_get_params` replaces every list value by the
comma-joined string of the string representations of its elements in
their original order (`normVal`, built on `joinList`, the translation of
`",".join(str(p) for p in ...)`), leaves every non-list value unchanged,
and afterwards the three reserved keys hold exactly the configured
token, api_version and lang, overriding caller-supplied values for those
keys; the function is total, so no error is raised. -/
theorem C2_param_normalization (self : BaseVKAPI) (params : Params) :
    getParam (_get_params self params) "access_token" = some (.str self.token)
    ∧ getParam (_get_params self params) "v" = some (.str self.api_version)
    ∧ getParam (_get_params self params) "lang" = some (.str self.lang)
    ∧ ∀ k : String, k ≠ "access_token" → k ≠ "v" → k ≠ "lang" →
        getParam (_get_params self params) k = (getParam params k).map normVal :=
  get_params_spec self params

/-- Witness for C2 at the params of the repository test:
`{"foo": "bar", "foolist": ["foo", "bar", 1]}`, with a caller-supplied
colliding `v` key to exhibit the silent override. -/
theorem C2_param_normalization_witness :
    getParam (_get_params (mkBaseVKAPI "some token value")
        [("foo", .str "bar"), ("foolist", .list [.str "foo", .str "bar", .int 1]),
          ("v", .str "9.99")]) "access_token" = some (.str "some token value")
    ∧ getParam (_get_params (mkBaseVKAPI "some token value")
        [("foo", .str "bar"), ("foolist", .list [.str "foo", .str "bar", .int 1]),
          ("v", .str "9.99")]) "v" = some (.str "5.131")
    ∧ getParam (_get_params (mkBaseVKAPI "some token value")
        [("foo", .str "bar"), ("foolist", .list [.str "foo", .str "bar", .int 1]),
          ("v", .str "9.99")]) "foolist" = some (.str "foo,bar,1") := by
  have h := C2_param_normalization (mkBaseVKAPI "some token value")
    [("foo", .str "bar"), ("foolist", .list [.str "foo", .str "bar", .int 1]),
      ("v", .str "9.99")]
  refine ⟨h.1, h.2.1, ?_⟩
  rw [h.2.2.2 "foolist" (by decide) (by decide) (by decide)]
  rfl

/-- Claim C10 (confirmed): `_get_params` mutates the dict the caller
passed in (item assignment in the loop and `|=` for the reserved keys)
and returns that very object: the returned dict has the identity of the
input dict and its entries are the normalized ones, so after any
`make_request` call the caller-owned mapping holds the joined lists and
the three reserved keys.  No copy is made. -/
theorem C10_in_place_mutation (self : BaseVKAPI) (p : DictObj) :
    (getParamsObj self p).oid = p.oid
    ∧ (getParamsObj self p).entries = _get_params self p.entries
    ∧ getParam (getParamsObj self p).entries "access_token" = some (.str self.token)
    ∧ getParam (getParamsObj self p).entries "v" = some (.str self.api_version)
    ∧ getParam (getParamsObj self p).entries "lang" = some (.str self.lang)
    ∧ ∀ k : String, k ≠ "access_token" → k ≠ "v" → k ≠ "lang" →
        getParam (getParamsObj self p).entries k = (getParam p.entries k).map normVal := by
  have h := get_params_spec self p.entries
  exact ⟨rfl, rfl, h.1, h.2.1, h.2.2.1, h.2.2.2⟩

/-- Witness for C10 at a concrete dict object holding a list value. -/
theorem C10_in_place_mutation_witness :
    (getParamsObj (mkBaseVKAPI "t") ⟨42, [("ids", .list [.int 1, .int 2])]⟩).oid = 42
    ∧ getParam (getParamsObj (mkBaseVKAPI "t")
        ⟨42, [("ids", .list [.int 1, .int 2])]⟩).entries "ids" = some (.str "1,2") := by
  have h := C10_in_place_mutation (mkBaseVKAPI "t") ⟨42, [("ids", .list [.int 1, .int 2])]⟩
  refine ⟨h.1, ?_⟩
  rw [h.2.2.2.2.2 "ids" (by decide) (by decide) (by decide)]
  rfl

/-! ### End-to-end request -/

/-- Counterexample to claim C5 as stated: for a client with token `T`
and params `{"owner_id": 1}`, the outgoing query string is
`owner_id=1&access_token=T&v=5.131&lang=ru` — the caller-supplied
`owner_id` key keeps its position and the reserved keys are appended
after it by `params |= ...` — not the claimed order
`access_token=T&v=5.131&lang=ru&owner_id=1`. -/
theorem C5_query_order_counterexample :
    renderQuery (buildRequest (mkBaseVKAPI "T") "wall.get"
        [("owner_id", .int 1)]).query
      = "owner_id=1&access_token=T&v=5.131&lang=ru"
    ∧ "owner_id=1&access_token=T&v=5.131&lang=ru"
        ≠ "access_token=T&v=5.131&lang=ru&owner_id=1" :=
  ⟨rfl, by decide⟩

/-- Claim C5 (corrected): constructing a client with token `T` and
calling `make_request` with method `wall.get`, params `{"owner_id": 1}`
and a model issues a GET to `{endpoint}/method/wall.get` whose query
string equals `owner_id=1&access_token=T&v=5.131&lang=ru` — the same
four pairs the claim lists, with the caller-supplied key first and the
injected reserved keys after it — and when the transport returns the
body `{"response": {"foo": "bar"}}` the call returns the model instance
with `foo == "bar"`. -/
theorem C5_end_to_end :
    (buildRequest (mkBaseVKAPI "T") "wall.get" [("owner_id", .int 1)]).url
      = "https://api.vk.com/method/wall.get"
    ∧ renderQuery (buildRequest (mkBaseVKAPI "T") "wall.get"
        [("owner_id", .int 1)]).query
      = "owner_id=1&access_token=T&v=5.131&lang=ru"
    ∧ make_request WallGetResponse (mkBaseVKAPI "T") "wall.get"
        [("owner_id", .int 1)]
        (fun _ => ⟨0, .ok (.obj [("response", .obj [("foo", .str "bar")])])⟩)
        (some wallGetResponseClass)
      = .successModel ⟨"bar"⟩ :=
  ⟨rfl, rfl, rfl⟩
